import Mathlib

/-!
Verification of the TikTok scraper repository (pog205/tiktok-getdata).

This file gives a shallow embedding of the repository's core logic:

* the `Semaphore` class bounding concurrent pages
  (tiktok-api-server.js lines 32-66, identical copy in tiktok-user-scraper.js);
* `ensureBrowser`, the lazy shared-browser launch (tiktok-api-server.js 76-125),
  modelled as an interleaving of two concurrent callers;
* the search extraction performed inside `page.evaluate` of `scrapeUsers`
  (tiktok-api-server.js 340-401): anchors `a[href*="/@"]`, the
  `/\/@([^\/\?]+)/` handle regex, per-facet fallback, dedup by username and
  truncation to `maxResults`;
* the control-flow / resource skeleton of `scrapeUsers` and
  `scrapeUserProfile` under injected faults (acquire/release trace and result);
* the profile extraction and the `checkElementsExist` confirmation step of the
  second `scrapeUserProfile` variant (tiktok-api-server.js 699-906);
* the index-aligned extraction of tiktok-user-scraper.js (125-157) used by
  simple-api-server.js, including its limit validation (simple-api-server.js
  13-21);
* the extraction of the src/unnamed/part_001 variant including its mock-record
  synthesis (part_001 lines 176-239).

The DOM is abstracted as data already resolved per CSS selector: a selector is
an opaque key, `querySelector` returns the first matching element,
`querySelectorAll` all of them, and element facets (`textContent`, `src`,
`poster`) are fields.  Comma-separated selector groups that the source passes
to a single `querySelector` call are kept as one opaque key.
-/

/-- JS `Array.prototype.slice(0, e)` where `e` may be negative
(a negative end counts from the end of the array). -/
def jsSliceTo (l : List α) (e : Int) : List α :=
  if 0 ≤ e then l.take e.toNat else l.take (l.length - (-e).toNat)

/-- Does `s` start with `p` (on character lists)? -/
def startsWithL : List Char → List Char → Bool
  | [], _ => true
  | _ :: _, [] => false
  | p :: ps, c :: cs => p == c && startsWithL ps cs

/-- Does `s` contain `pat` as a contiguous substring (on character lists)?
Models JS `String.prototype.includes`. -/
def containsL (pat : List Char) : List Char → Bool
  | [] => startsWithL pat []
  | c :: cs => startsWithL pat (c :: cs) || containsL pat cs

/-- JS `s.includes(pat)`. -/
def strContains (s pat : String) : Bool :=
  containsL pat.toList s.toList

/-- JS `String.prototype.trim`: strip whitespace from both ends. -/
def jsTrim (s : String) : String :=
  String.mk (((s.toList.dropWhile Char.isWhitespace).reverse.dropWhile Char.isWhitespace).reverse)

/-- The capture of the first match of the regex `/\/@([^\/\?]+)/`:
scan for `/@`, then take at least one character other than `/` and `?`.
If the character class matches nothing at this position, the regex engine
resumes scanning one character later. -/
def extractHandleAux : List Char → Option (List Char)
  | [] => none
  | '/' :: '@' :: rest =>
    let h := rest.takeWhile (fun c => c != '/' && c != '?')
    if h.isEmpty then extractHandleAux ('@' :: rest) else some h
  | _ :: rest => extractHandleAux rest

/-- `href.match(/\/@([^\/\?]+)/)` returning the captured username,
as used in `scrapeUsers` (tiktok-api-server.js 348) and on
`window.location.href` in `scrapeUserProfile` (line 771). -/
def extractHandle (href : String) : Option String :=
  (extractHandleAux href.toList).map (fun l => String.mk l)

/-- One `a[href*="/@"]` anchor of the rendered search document
(tiktok-api-server.js 344): its `href`, the resolved `src` of the first
`img` inside it (`''` when absent), and the `textContent` of the first
match of each name selector that matched, in selector order. -/
structure Anchor where
  href : String
  img : String
  nameTexts : List String
deriving Repr, DecidableEq

/-- A record produced by the search extraction
(`{ username, img, name }`, tiktok-api-server.js 378-382). -/
structure UserRecord where
  username : String
  img : String
  name : String
deriving Repr, DecidableEq

/-- The display-name fallback loop of `scrapeUsers` (tiktok-api-server.js
360-376): first selector text that is non-empty after trim, differs from
the username and does not include `'Break reminders'`; default username. -/
def resolveName (username : String) : List String → String
  | [] => username
  | t :: rest =>
    let text := jsTrim t
    if text ≠ "" ∧ text ≠ username ∧ strContains text "Break reminders" = false then text
    else resolveName username rest

/-- Processing of one anchor (tiktok-api-server.js 346-384): anchors whose
href has no `/@` segment produce nothing; otherwise the username is the
regex capture and the facets are resolved independently. -/
def linkToRecord (a : Anchor) : Option UserRecord :=
  match extractHandle a.href with
  | none => none
  | some username => some ⟨username, a.img, resolveName username a.nameTexts⟩

/-- The `results` array built by the `links.forEach` loop
(tiktok-api-server.js 346-384). -/
def collectRecords (links : List Anchor) : List UserRecord :=
  links.filterMap linkToRecord

/-- The dedup/truncate loop of `scrapeUsers` (tiktok-api-server.js 386-396):
keep a record if its username is truthy and unseen, and break once
`uniqueResults.length >= max` (checked after the push). -/
def dedupTakeAux (max : Int) : List UserRecord → List String → List UserRecord → List UserRecord
  | [], _, acc => acc.reverse
  | u :: rest, seen, acc =>
    if u.username ≠ "" ∧ u.username ∉ seen then
      if (((u :: acc).length : Int) ≥ max) then (u :: acc).reverse
      else dedupTakeAux max rest (u.username :: seen) (u :: acc)
    else dedupTakeAux max rest seen acc

/-- The value returned by `page.evaluate` in `scrapeUsers`
(tiktok-api-server.js 340-399). -/
def evalSearchUsers (links : List Anchor) (max : Int) : List UserRecord :=
  dedupTakeAux max (collectRecords links) [] []

/-- `scrapeUsers`' extraction result: the evaluate value followed by
`users.slice(0, maxResults)` (tiktok-api-server.js 401). -/
def extractUsers (links : List Anchor) (max : Int) : List UserRecord :=
  jsSliceTo (evalSearchUsers links max) max

/-- String-level mirror of the handle extraction over a list of hrefs. -/
def hrefHandles (hs : List String) : List String :=
  hs.filterMap extractHandle

/-- String-level mirror of `dedupTakeAux`, acting on usernames only. -/
def dedupTakeStr (max : Int) : List String → List String → List String → List String
  | [], _, acc => acc.reverse
  | u :: rest, seen, acc =>
    if u ≠ "" ∧ u ∉ seen then
      if (((u :: acc).length : Int) ≥ max) then (u :: acc).reverse
      else dedupTakeStr max rest (u :: seen) (u :: acc)
    else dedupTakeStr max rest seen acc

/-- The dedup loop without the truncation check: all records with a truthy,
first-seen username, in order. -/
def dedupAll : List UserRecord → List String → List UserRecord
  | [], _ => []
  | u :: rest, seen =>
    if u.username ≠ "" ∧ u.username ∉ seen then u :: dedupAll rest (u.username :: seen)
    else dedupAll rest seen

theorem linkToRecord_map_username (a : Anchor) :
    (linkToRecord a).map (fun r => r.username) = extractHandle a.href := by
  cases h : extractHandle a.href <;> simp [linkToRecord, h]

theorem collectRecords_map_username (links : List Anchor) :
    (collectRecords links).map (fun r => r.username)
      = hrefHandles (links.map (fun a => a.href)) := by
  induction links with
  | nil => rfl
  | cons a l ih =>
    simp only [collectRecords, hrefHandles, List.map_cons, List.filterMap_cons] at *
    cases h : extractHandle a.href with
    | none =>
      have h' : linkToRecord a = none := by
        simpa [h] using congrArg id (by cases hh : extractHandle a.href <;> simp_all [linkToRecord])
      simp [h', ih]
    | some u =>
      have h' : linkToRecord a = some ⟨u, a.img, resolveName u a.nameTexts⟩ := by
        simp [linkToRecord, h]
      simp [h', ih]

theorem dedupTakeAux_map_username (max : Int) :
    ∀ (l : List UserRecord) (seen : List String) (acc : List UserRecord),
      (dedupTakeAux max l seen acc).map (fun r => r.username)
        = dedupTakeStr max (l.map (fun r => r.username)) seen (acc.map (fun r => r.username)) := by
  intro l
  induction l with
  | nil => intro seen acc; simp [dedupTakeAux, dedupTakeStr]
  | cons u rest ih =>
    intro seen acc
    by_cases hc : u.username ≠ "" ∧ u.username ∉ seen
    · by_cases hb : max ≤ (acc.length : Int) + 1
      · simp [dedupTakeAux, dedupTakeStr, hc, hb]
      · simp [dedupTakeAux, dedupTakeStr, hc, hb, ih]
    · simp [dedupTakeAux, dedupTakeStr, hc, ih]

theorem jsSliceTo_map (f : α → β) (l : List α) (e : Int) :
    (jsSliceTo l e).map f = jsSliceTo (l.map f) e := by
  unfold jsSliceTo
  split <;> simp [List.map_take]

theorem extractUsers_map_username (links : List Anchor) (max : Int) :
    (extractUsers links max).map (fun r => r.username)
      = jsSliceTo (dedupTakeStr max (hrefHandles (links.map (fun a => a.href))) [] []) max := by
  unfold extractUsers evalSearchUsers
  rw [jsSliceTo_map]
  rw [show (dedupTakeAux max (collectRecords links) [] []).map (fun r => r.username)
        = dedupTakeStr max ((collectRecords links).map (fun r => r.username)) [] [] from
      dedupTakeAux_map_username max (collectRecords links) [] []]
  rw [collectRecords_map_username]

theorem dedupTakeStr_nodup (max : Int) :
    ∀ (l seen acc : List String), acc.Nodup → (∀ x ∈ acc, x ∈ seen) →
      (dedupTakeStr max l seen acc).Nodup := by
  intro l
  induction l with
  | nil =>
    intro seen acc ha _
    simpa [dedupTakeStr] using ha
  | cons u rest ih =>
    intro seen acc ha hsub
    by_cases hc : u ≠ "" ∧ u ∉ seen
    · have hu : u ∉ acc := fun hmem => hc.2 (hsub u hmem)
      by_cases hb : max ≤ (acc.length : Int) + 1
      · simp only [dedupTakeStr, if_pos hc]
        rw [if_pos (by simpa using hb)]
        exact List.nodup_reverse.mpr (List.nodup_cons.mpr ⟨hu, ha⟩)
      · simp only [dedupTakeStr, if_pos hc]
        rw [if_neg (by simpa using hb)]
        exact ih (u :: seen) (u :: acc) (List.nodup_cons.mpr ⟨hu, ha⟩)
          (fun x hx => by
            rcases List.mem_cons.mp hx with h | h
            · exact List.mem_cons.mpr (Or.inl h)
            · exact List.mem_cons.mpr (Or.inr (hsub x h)))
    · simp only [dedupTakeStr, if_neg hc]
      exact ih seen acc ha hsub

theorem mem_dedupTakeAux (max : Int) :
    ∀ (l : List UserRecord) (seen : List String) (acc : List UserRecord) (r : UserRecord),
      r ∈ dedupTakeAux max l seen acc → r ∈ acc ∨ r ∈ l := by
  intro l
  induction l with
  | nil =>
    intro seen acc r hr
    simp only [dedupTakeAux, List.mem_reverse] at hr
    exact Or.inl hr
  | cons u rest ih =>
    intro seen acc r hr
    by_cases hc : u.username ≠ "" ∧ u.username ∉ seen
    · by_cases hb : (((u :: acc).length : Int) ≥ max)
      · simp only [dedupTakeAux, if_pos hc, if_pos hb, List.mem_reverse, List.mem_cons] at hr
        rcases hr with h | h
        · exact Or.inr (List.mem_cons.mpr (Or.inl h))
        · exact Or.inl h
      · simp only [dedupTakeAux, if_pos hc, if_neg hb] at hr
        rcases ih (u.username :: seen) (u :: acc) r hr with h | h
        · rcases List.mem_cons.mp h with h | h
          · exact Or.inr (List.mem_cons.mpr (Or.inl h))
          · exact Or.inl h
        · exact Or.inr (List.mem_cons.mpr (Or.inr h))
    · simp only [dedupTakeAux, if_neg hc] at hr
      rcases ih seen acc r hr with h | h
      · exact Or.inl h
      · exact Or.inr (List.mem_cons.mpr (Or.inr h))

theorem jsSliceTo_sublist (l : List α) (e : Int) : (jsSliceTo l e).Sublist l := by
  unfold jsSliceTo
  split <;> exact List.take_sublist _ _

theorem dedupTakeAux_of_le (max : Int) :
    ∀ (l : List UserRecord) (seen : List String) (acc : List UserRecord),
      ((acc.length : Int) + ((dedupAll l seen).length : Int) ≤ max) →
      dedupTakeAux max l seen acc = acc.reverse ++ dedupAll l seen := by
  intro l
  induction l with
  | nil =>
    intro seen acc _
    simp [dedupTakeAux, dedupAll]
  | cons u rest ih =>
    intro seen acc h
    by_cases hc : u.username ≠ "" ∧ u.username ∉ seen
    · have hd : dedupAll (u :: rest) seen = u :: dedupAll rest (u.username :: seen) := by
        simp [dedupAll, hc]
      rw [hd] at h
      by_cases hb : (((u :: acc).length : Int) ≥ max)
      · have hnil : dedupAll rest (u.username :: seen) = [] := by
          have : (dedupAll rest (u.username :: seen)).length = 0 := by
            simp only [List.length_cons] at h hb
            push_cast at h hb
            omega
          exact List.length_eq_zero.mp this
        have hb2 : max ≤ (acc.length : Int) + 1 := by simpa using hb
        simp [dedupTakeAux, hc, hd, hnil, hb2]
      · simp only [dedupTakeAux, if_pos hc, if_neg hb]
        rw [ih (u.username :: seen) (u :: acc)
          (by simp only [List.length_cons] at h ⊢; push_cast at h ⊢; omega)]
        simp [hd]
    · have hd : dedupAll (u :: rest) seen = dedupAll rest seen := by
        simp [dedupAll, hc]
      rw [hd] at h
      simp only [dedupTakeAux, if_neg hc]
      rw [ih seen acc h, hd]

theorem jsSliceTo_of_length_le (l : List α) (e : Int)
    (h : (l.length : Int) ≤ e) : jsSliceTo l e = l := by
  have h0 : 0 ≤ e := le_trans (by positivity) h
  unfold jsSliceTo
  rw [if_pos h0]
  exact List.take_of_length_le (by omega)

/-- State of the `Semaphore` class (tiktok-api-server.js 32-66):
`maxConcurrent`, `currentConcurrent` and the FIFO `queue` of pending
resolvers (represented by waiter ids).  `currentConcurrent` is an integer
because the JS field is decremented without a guard. -/
structure Semaphore where
  maxConcurrent : Nat
  currentConcurrent : Int
  queue : List Nat
deriving Repr, DecidableEq

/-- `Semaphore.acquire` (lines 39-48): when `currentConcurrent <
maxConcurrent` the promise resolves at once (`true`) and the count is
incremented; otherwise the resolver is appended to the queue (`false`,
not granted). -/
def Semaphore.acquire (s : Semaphore) (id : Nat) : Semaphore × Bool :=
  if s.currentConcurrent < (s.maxConcurrent : Int) then
    (⟨s.maxConcurrent, s.currentConcurrent + 1, s.queue⟩, true)
  else
    (⟨s.maxConcurrent, s.currentConcurrent, s.queue ++ [id]⟩, false)

/-- `Semaphore.release` (lines 50-57): decrement, and if waiters exist,
shift the head of the queue, re-increment and resolve it.  The body is
synchronous JS, so the decrement/increment pair is one atomic step; the
second component is the waiter the slot was handed to, if any. -/
def Semaphore.release (s : Semaphore) : Semaphore × Option Nat :=
  match s.queue with
  | [] => (⟨s.maxConcurrent, s.currentConcurrent - 1, []⟩, none)
  | next :: rest => (⟨s.maxConcurrent, s.currentConcurrent - 1 + 1, rest⟩, some next)

/-- Semaphore states reachable under the usage protocol: starting from a
fresh semaphore, any interleaving of `acquire` calls and of `release`
calls made by current slot holders (so `release` only happens while
`0 < currentConcurrent`). -/
inductive SemReachable : Semaphore → Prop
  | init (cap : Nat) : SemReachable ⟨cap, 0, []⟩
  | acquire (s : Semaphore) (id : Nat) (h : SemReachable s) : SemReachable (s.acquire id).1
  | release (s : Semaphore) (h : SemReachable s) (hpos : 0 < s.currentConcurrent) :
      SemReachable (s.release).1

/-- An operation against the semaphore, for whole-trace runs. -/
inductive SemOp
  | acq (id : Nat)
  | rel
deriving Repr, DecidableEq

/-- Run a list of operations from a state, recording the enqueue log (ids
that were queued because the gate was full) and the grant log (ids that
were handed a slot by `release`), in order. -/
def semRun : List SemOp → Semaphore → List Nat → List Nat → Semaphore × List Nat × List Nat
  | [], s, enq, grants => (s, enq, grants)
  | SemOp.acq id :: ops, s, enq, grants =>
    if s.currentConcurrent < (s.maxConcurrent : Int) then
      semRun ops (s.acquire id).1 enq grants
    else
      semRun ops (s.acquire id).1 (enq ++ [id]) grants
  | SemOp.rel :: ops, s, enq, grants =>
    match (s.release).2 with
    | none => semRun ops (s.release).1 enq grants
    | some id => semRun ops (s.release).1 enq (grants ++ [id])

theorem semRun_log_inv : ∀ (ops : List SemOp) (s : Semaphore) (enq grants : List Nat),
    enq = grants ++ s.queue →
    (semRun ops s enq grants).2.1
      = (semRun ops s enq grants).2.2 ++ ((semRun ops s enq grants).1).queue := by
  intro ops
  induction ops with
  | nil =>
    intro s e g h
    simpa [semRun] using h
  | cons op rest ih =>
    intro s e g h
    cases op with
    | acq id =>
      by_cases hc : s.currentConcurrent < (s.maxConcurrent : Int)
      · simp only [semRun, if_pos hc]
        exact ih _ _ _ (by simpa [Semaphore.acquire, hc] using h)
      · simp only [semRun, if_neg hc]
        exact ih _ _ _ (by simp [Semaphore.acquire, hc, h, List.append_assoc])
    | rel =>
      cases hq : s.queue with
      | nil =>
        simp only [semRun, Semaphore.release, hq]
        exact ih _ _ _ (by rw [hq] at h; exact h)
      | cons n restq =>
        simp only [semRun, Semaphore.release, hq]
        refine ih _ _ _ ?_
        rw [hq] at h
        rw [h]
        simp

/-- Program counter of one `ensureBrowser` caller (tiktok-api-server.js
76-125): not yet started, suspended inside `puppeteer.launch`, or
finished holding a browser (with a flag recording whether this caller
itself performed a launch). -/
inductive CallerPc
  | start
  | launching
  | done (browser : Nat) (launched : Bool)
deriving Repr, DecidableEq

/-- Global state for two concurrent `ensureBrowser` callers: the
`globalBrowser` module variable (line 29), a supply of fresh browser ids,
and each caller's program counter. -/
structure LaunchSys where
  globalBrowser : Option Nat
  nextId : Nat
  pc0 : CallerPc
  pc1 : CallerPc
deriving Repr, DecidableEq

def getPc (s : LaunchSys) (c : Bool) : CallerPc :=
  if c then s.pc1 else s.pc0

def setPc (s : LaunchSys) (c : Bool) (p : CallerPc) : LaunchSys :=
  if c then ⟨s.globalBrowser, s.nextId, s.pc0, p⟩ else ⟨s.globalBrowser, s.nextId, p, s.pc1⟩

/-- One scheduler step of caller `c` running `ensureBrowser`:
at `start` the caller checks `globalBrowser` (lines 77-80) and either
finishes with the shared browser or proceeds into `puppeteer.launch`
(line 122), where the `await` suspends it; a `launching` caller later
resumes, obtains a fresh browser and publishes it to `globalBrowser`
(line 123). -/
def ensureBrowserStep (s : LaunchSys) (c : Bool) : LaunchSys :=
  match getPc s c with
  | CallerPc.start =>
    match s.globalBrowser with
    | some e => setPc s c (CallerPc.done e false)
    | none => setPc s c CallerPc.launching
  | CallerPc.launching =>
    let s2 := setPc s c (CallerPc.done s.nextId true)
    ⟨some s.nextId, s.nextId + 1, s2.pc0, s2.pc1⟩
  | CallerPc.done _ _ => s

/-- Run a schedule (a list of caller choices) from the initial state:
no browser, both callers about to enter `ensureBrowser`. -/
def launchRun (sched : List Bool) : LaunchSys :=
  sched.foldl ensureBrowserStep ⟨none, 0, CallerPc.start, CallerPc.start⟩

/-- Number of launches currently in flight. -/
def inFlight (s : LaunchSys) : Nat :=
  (if s.pc0 = CallerPc.launching then 1 else 0)
    + (if s.pc1 = CallerPc.launching then 1 else 0)

/-- Rendered search document as seen by the `page.evaluate` of
tiktok-user-scraper.js (125-157): the elements matching the username
selector group, the image selector group and the name selector group,
index-aligned in document order (`textContent` for the first and third,
resolved `src` for the second). -/
structure CliDoc where
  userTexts : List String
  imgSrcs : List String
  nameTexts : List String
deriving Repr, DecidableEq

/-- The `for (let i = 0, found = 0; found < max && i < limit; i++)` loop of
tiktok-user-scraper.js (138-154), with `fuel = limit - i` so that the
recursion is structural: at each index the username is the trimmed text of
the i-th username element (absent elements give `''`), the image the i-th
src, the name the trimmed i-th name text defaulting to the username; a
record is pushed when username or img is truthy. -/
def cliLoop (d : CliDoc) (max : Nat) : Nat → Nat → Nat → List UserRecord
  | 0, _, _ => []
  | fuel + 1, i, found =>
    if found < max then
      let uo : Option String := (d.userTexts.get? i).map jsTrim
      let io : Option String := d.imgSrcs.get? i
      let no : Option String := (d.nameTexts.get? i).map jsTrim
      let username := uo.getD ""
      let img := io.getD ""
      let name := match no with
        | some t => t
        | none => username
      if username ≠ "" ∨ img ≠ "" then
        ⟨username, img, name⟩ :: cliLoop d max fuel (i + 1) (found + 1)
      else
        cliLoop d max fuel (i + 1) found
    else []

/-- The value of `page.evaluate` in tiktok-user-scraper.js:
`limit = Math.min(max, Math.max(usernames.length, images.length,
names.length))` (line 136) and the loop above. -/
def cliEvaluate (d : CliDoc) (max : Nat) : List UserRecord :=
  cliLoop d max (min max (Nat.max (Nat.max d.userTexts.length d.imgSrcs.length) d.nameTexts.length)) 0 0

/-- tiktok-user-scraper.js `scrapeUsers` result:
`users.slice(0, maxResults)` (line 159). -/
def cliScrape (d : CliDoc) (max : Nat) : List UserRecord :=
  (cliEvaluate d max).take max

/-- The `scrapeUsers` wrapper of simple-api-server.js (13-48): it throws
when the query is missing and when `maxResults < 1 || maxResults > 20`
(before creating a scraper or touching any document), otherwise delegates
to the tiktok-user-scraper extraction. -/
def simpleScrapeUsers (query : String) (maxResults : Int) (d : CliDoc) :
    Except String (List UserRecord) :=
  if query = "" then Except.error "Query parameter is required"
  else if maxResults < 1 ∨ maxResults > 20 then
    Except.error "maxResults must be between 1 and 20"
  else Except.ok (cliScrape d maxResults.toNat)

/-- A DOM element of the profile page, with its relevant facets resolved
(`textContent`, `src`, `poster`). -/
structure DomElem where
  text : String
  src : String
  poster : String
deriving Repr, DecidableEq

/-- Rendered profile document: `window.location.href` and the elements
keyed by the selector that matches them (a comma-separated selector group
passed to one `querySelector` call is kept as one opaque key).
`querySelector` returns the first pair with the key, `querySelectorAll`
all of them in document order. -/
structure PDoc where
  url : String
  elems : List (String × DomElem)
deriving Repr, DecidableEq

def PDoc.query (d : PDoc) (sel : String) : Option DomElem :=
  (d.elems.find? (fun p => p.1 == sel)).map (fun p => p.2)

def PDoc.queryAll (d : PDoc) (sel : String) : List DomElem :=
  (d.elems.filter (fun p => p.1 == sel)).map (fun p => p.2)

/-- `checkElementsExist` helper (tiktok-api-server.js 642-646):
`selectors.some(sel => document.querySelector(sel) !== null)`. -/
def checkElementsExist (d : PDoc) (sels : List String) : Bool :=
  sels.any (fun sel => (d.query sel).isSome)

/-- The selectors of the confirmation check of `scrapeUserProfile`
(tiktok-api-server.js 742-745). -/
def profileCheckSelectors : List String :=
  ["[data-e2e=\"user-title\"]", ".user-title", "h1", "h2",
   "img[src*=\"tiktokcdn.com\"]", "[data-e2e=\"user-avatar\"] img"]

/-- First selector whose element has non-empty trimmed text
(the display-name loop, tiktok-api-server.js 787-793). -/
def firstText (d : PDoc) : List String → String
  | [] => ""
  | sel :: rest =>
    match d.query sel with
    | some el => if jsTrim el.text ≠ "" then jsTrim el.text else firstText d rest
    | none => firstText d rest

/-- First selector whose element has non-empty trimmed text different from
`avoid` (the bio loop, tiktok-api-server.js 806-812). -/
def firstTextNe (d : PDoc) (avoid : String) : List String → String
  | [] => ""
  | sel :: rest =>
    match d.query sel with
    | some el =>
      if jsTrim el.text ≠ "" ∧ jsTrim el.text ≠ avoid then jsTrim el.text
      else firstTextNe d avoid rest
    | none => firstTextNe d avoid rest

/-- First selector whose element has a non-empty `src`
(the avatar loop, tiktok-api-server.js 822-828). -/
def firstSrc (d : PDoc) : List String → String
  | [] => ""
  | sel :: rest =>
    match d.query sel with
    | some el => if el.src ≠ "" then el.src else firstSrc d rest
    | none => firstSrc d rest

/-- First selector whose element text includes `pat`, returning the trimmed
text (the follower/following/likes loops, tiktok-api-server.js 838-874). -/
def firstTextIncluding (d : PDoc) (pat : String) : List String → String
  | [] => ""
  | sel :: rest =>
    match d.query sel with
    | some el =>
      if strContains el.text pat then jsTrim el.text
      else firstTextIncluding d pat rest
    | none => firstTextIncluding d pat rest

def profileNameSelectors : List String :=
  [".css-1iaxnh7-5e6d46e3--PTitle.e11zs9t55", "[data-e2e=\"user-title\"]",
   ".user-title", "h1", "h2", "[class*=\"username\"]", "[class*=\"displayName\"]"]

def profileBioSelectors : List String :=
  ["[data-e2e=\"search-user-nickname\"]",
   ".css-1cjzxd7-5e6d46e3--PUserSubTitle.e11zs9t57", "[data-e2e=\"user-bio\"]",
   ".user-bio", "[class*=\"bio\"]", "[class*=\"description\"]", "p"]

def profileAvatarSelectors : List String :=
  [".css-g3le1f-5e6d46e3--ImgAvatar.e1iqrkv71 img", "[data-e2e=\"user-avatar\"] img",
   ".user-avatar img", "img"]

def profileFollowerSelectors : List String :=
  ["[data-e2e=\"followers-count\"]", ".followers-count", "[class*=\"follower\"]", "strong"]

def profileFollowingSelectors : List String :=
  ["[data-e2e=\"following-count\"]", ".following-count", "[class*=\"following\"]"]

def profileLikesSelectors : List String :=
  ["[data-e2e=\"likes-count\"]", ".likes-count", "[class*=\"likes\"]"]

/-- The extended record built by the profile `page.evaluate`
(tiktok-api-server.js 756-888). -/
structure ProfileInfo where
  username : String
  displayName : String
  bio : String
  avatar : String
  followers : String
  following : String
  likes : String
  verified : Bool
  videos : List (Nat × String × String)
deriving Repr, DecidableEq

/-- Video entries: `videoElements.slice(0, 5).map((video, index) => ...)`
(tiktok-api-server.js 881-886); `src` and `thumbnail` are the resolved
`video.src || source.src || ''` and `poster || img.src || ''`. -/
def enumVideos (vs : List DomElem) : List (Nat × String × String) :=
  ((List.range vs.length).zip vs).map (fun p => (p.1 + 1, p.2.src, p.2.poster))

/-- The profile `page.evaluate` (tiktok-api-server.js 756-888): username
from the URL regex, then each facet through its own fallback chain,
defaulting to an empty value. -/
def extractProfileInfo (d : PDoc) : ProfileInfo :=
  let username := match extractHandle d.url with
    | some u => u
    | none => ""
  let displayName := firstText d profileNameSelectors
  ⟨username,
   displayName,
   firstTextNe d displayName profileBioSelectors,
   firstSrc d profileAvatarSelectors,
   firstTextIncluding d "Followers" profileFollowerSelectors,
   firstTextIncluding d "Following" profileFollowingSelectors,
   firstTextIncluding d "Likes" profileLikesSelectors,
   (d.query "[data-e2e=\"verified-icon\"], .verified-icon, [class*=\"verified\"]").isSome,
   enumVideos ((d.queryAll "[data-e2e=\"video-item\"], .video-item, video").take 5)⟩

/-- Injected failures for the operation skeletons.  `probeTimesOut` (the
`waitForSelector`/`waitForAnySelector` readiness probe timing out) and
`closeThrows` (`page.close()` throwing) are deliberately absent from the
control flow below: the source catches and only logs both
(tiktok-api-server.js 333-337 and 406-409). -/
structure Faults where
  launchFails : Bool
  newPageFails : Bool
  navTimesOut : Bool
  probeTimesOut : Bool
  extractThrows : Bool
  closeThrows : Bool
deriving Repr, DecidableEq

/-- Resource events on the admission gate. -/
inductive Ev
  | acquire
  | release
deriving Repr, DecidableEq, BEq

/-- The body of the `try` in `scrapeUsers` (tiktok-api-server.js 320-401):
`page.goto` throwing on navigation timeout (line 330) or `page.evaluate`
throwing abort the body; otherwise it returns the extraction sliced to
`maxResults`. -/
def scrapeUsersBody (f : Faults) (links : List Anchor) (max : Int) :
    Except String (List UserRecord) :=
  if f.navTimesOut = true then Except.error "Navigation timeout exceeded"
  else if f.extractThrows = true then Except.error "Evaluation failed"
  else Except.ok (extractUsers links max)

/-- The `catch` of `scrapeUsers` (tiktok-api-server.js 402-404): any error
from the body is logged and replaced by `[]`. -/
def catchToEmpty (body : Except String (List UserRecord)) : Except String (List UserRecord) :=
  match body with
  | Except.error _ => Except.ok []
  | Except.ok users => Except.ok users

/-- The control-flow and resource skeleton of `scrapeUsers`
(tiktok-api-server.js 311-416): the query guard throws before the
semaphore is touched; `pageSemaphore.acquire()` (line 315) precedes
`ensureBrowser()` and `browser.newPage()` (318-319), which run OUTSIDE the
`try`, so a failure there propagates with no `release`; inside the
`try`/`catch`/`finally`, `page.close()` errors are swallowed and the inner
`finally` always runs `pageSemaphore.release()` (405-415). -/
def scrapeUsersExec (f : Faults) (links : List Anchor) (query : String) (max : Int) :
    List Ev × Except String (List UserRecord) :=
  if query = "" then ([], Except.error "Query parameter is required")
  else if f.launchFails = true then ([Ev.acquire], Except.error "Browser launch failed")
  else if f.newPageFails = true then ([Ev.acquire], Except.error "newPage failed")
  else ([Ev.acquire, Ev.release], catchToEmpty (scrapeUsersBody f links max))

/-- The body of the `try` in the second `scrapeUserProfile` variant
(tiktok-api-server.js 711-892): navigation may throw; after the probe, the
confirmation check `checkElementsExist` returns `null` when no acceptance
marker is present (747-750); then the evaluate may throw; otherwise the
extracted record is returned. -/
def scrapeUserProfileBody (f : Faults) (d : PDoc) : Except String (Option ProfileInfo) :=
  if f.navTimesOut = true then Except.error "Navigation timeout exceeded"
  else if checkElementsExist d profileCheckSelectors = false then Except.ok none
  else if f.extractThrows = true then Except.error "Evaluation failed"
  else Except.ok (some (extractProfileInfo d))

/-- The `catch` of `scrapeUserProfile` (tiktok-api-server.js 893-895):
any error from the body is logged and replaced by `null`. -/
def catchToNone (body : Except String (Option ProfileInfo)) : Except String (Option ProfileInfo) :=
  match body with
  | Except.error _ => Except.ok none
  | Except.ok r => Except.ok r

/-- The control-flow and resource skeleton of the second
`scrapeUserProfile` variant (tiktok-api-server.js 699-906); the resource
layout is the same as `scrapeUsersExec` (acquire at 706 before
`ensureBrowser`/`newPage` at 708-709, which run outside the `try`). -/
def scrapeUserProfileExec (f : Faults) (d : PDoc) (username : String) :
    List Ev × Except String (Option ProfileInfo) :=
  if username = "" then ([], Except.error "Username parameter is required")
  else if f.launchFails = true then ([Ev.acquire], Except.error "Browser launch failed")
  else if f.newPageFails = true then ([Ev.acquire], Except.error "newPage failed")
  else ([Ev.acquire, Ev.release], catchToNone (scrapeUserProfileBody f d))

/-- The body of the first `scrapeUserProfile` variant (tiktok-api-server.js
137-293): same as the second variant but WITHOUT the confirmation check —
the probe timeout is only logged (150-156) and extraction always
proceeds. -/
def scrapeUserProfileBodyV1 (f : Faults) (d : PDoc) : Except String (Option ProfileInfo) :=
  if f.navTimesOut = true then Except.error "Navigation timeout exceeded"
  else if f.extractThrows = true then Except.error "Evaluation failed"
  else Except.ok (some (extractProfileInfo d))

/-- The control-flow and resource skeleton of the first `scrapeUserProfile`
variant (tiktok-api-server.js 128-308). -/
def scrapeUserProfileExecV1 (f : Faults) (d : PDoc) (username : String) :
    List Ev × Except String (Option ProfileInfo) :=
  if username = "" then ([], Except.error "Username parameter is required")
  else if f.launchFails = true then ([Ev.acquire], Except.error "Browser launch failed")
  else if f.newPageFails = true then ([Ev.acquire], Except.error "newPage failed")
  else ([Ev.acquire, Ev.release], catchToNone (scrapeUserProfileBodyV1 f d))

/-- Rendered search document for the part_001 variant (src/unnamed/part_001
176-239): primary and alternative selector hits for usernames
(`textContent`), images (`src`) and names (`textContent`), index-aligned in
document order. -/
structure AltDoc where
  primU : List String
  primI : List String
  primN : List String
  altU : List String
  altI : List String
  altN : List String
deriving Repr, DecidableEq

/-- The `page.evaluate` of the part_001 variant (lines 176-239): primary
selectors fall back to alternatives when empty,
`limit = Math.min(max, finalU.length, finalI.length, finalN.length)`, a
record is pushed when username and img are both truthy — and when nothing
was found, `Math.min(max, 3)` mock records are synthesized (227-236). -/
def part1Evaluate (d : AltDoc) (max : Nat) : List UserRecord :=
  let finalU := if d.primU.length > 0 then d.primU else d.altU
  let finalI := if d.primI.length > 0 then d.primI else d.altI
  let finalN := if d.primN.length > 0 then d.primN else d.altN
  let limit := min max (min finalU.length (min finalI.length finalN.length))
  let results := (List.range limit).filterMap (fun i =>
    let username := jsTrim (finalU.getD i "")
    let img := finalI.getD i ""
    let name := jsTrim (finalN.getD i "")
    if username ≠ "" ∧ img ≠ "" then
      some (⟨username, img, if name = "" then username else name⟩ : UserRecord)
    else none)
  if results.length = 0 then
    (List.range (min max 3)).map (fun i =>
      (⟨if i = 0 then "mock_user" else "mock_user_" ++ toString (i + 1),
        "https://via.placeholder.com/100x100?text=Avatar",
        if i = 0 then "Mock User" else "Mock User " ++ toString (i + 1)⟩ : UserRecord))
  else results

/-- A search document with two distinct valid anchors. -/
def demoLinks : List Anchor :=
  [⟨"/@alice", "a.png", []⟩, ⟨"/@bob", "b.png", []⟩]

/-- The same anchors with different images and free-text contents. -/
def demoLinks2 : List Anchor :=
  [⟨"/@alice", "other.png", ["Alice banner"]⟩, ⟨"/@bob", "", ["Bob!"]⟩]

/-- Anchors whose handles are the sequence a, b, a, c, d. -/
def links5 : List Anchor :=
  [⟨"/@a", "", []⟩, ⟨"/@b", "", []⟩, ⟨"/@a", "", []⟩, ⟨"/@c", "", []⟩, ⟨"/@d", "", []⟩]

def noFaults : Faults := ⟨false, false, false, false, false, false⟩

def launchFailOnly : Faults := ⟨true, false, false, false, false, false⟩

def navTimeoutOnly : Faults := ⟨false, false, true, false, false, false⟩

def probeTimeoutOnly : Faults := ⟨false, false, false, true, false, false⟩

def closeThrowsOnly : Faults := ⟨false, false, false, false, false, true⟩

/-- A profile page for a nonexistent user: correct URL, empty document. -/
def ghostDoc : PDoc := ⟨"https://www.tiktok.com/@ghost", []⟩

/-- A search document for the CLI scraper where the username elements carry
free text. -/
def cliDocA : CliDoc := ⟨["Alice In Wonderland"], ["x.png"], []⟩

/-- Same document shape with different free text in the username element. -/
def cliDocB : CliDoc := ⟨["Bobby Tables"], ["x.png"], []⟩

/-- Claim C1 (evidence): the admission-gate slot is NOT released on every
exit path.  When the engine launch fails (`ensureBrowser` throwing after
`pageSemaphore.acquire()`, which runs outside the `try`/`finally`), both
`scrapeUsers` and `scrapeUserProfile` complete with one `acquire` and zero
`release` events — the slot leaks; on the in-`try` failure paths
(navigation timeout combined with a throwing `page.close()`) the trace is
balanced. -/
theorem slot_leak_on_launch_failure :
    ((scrapeUsersExec launchFailOnly demoLinks "dance" 5).1.count Ev.acquire = 1 ∧
     (scrapeUsersExec launchFailOnly demoLinks "dance" 5).1.count Ev.release = 0) ∧
    ((scrapeUserProfileExec launchFailOnly ghostDoc "ghost").1.count Ev.acquire = 1 ∧
     (scrapeUserProfileExec launchFailOnly ghostDoc "ghost").1.count Ev.release = 0) ∧
    ((scrapeUsersExec ⟨false, false, true, false, false, true⟩ demoLinks "dance" 5).1.count Ev.acquire = 1 ∧
     (scrapeUsersExec ⟨false, false, true, false, false, true⟩ demoLinks "dance" 5).1.count Ev.release = 1) :=
  ⟨⟨rfl, rfl⟩, ⟨rfl, rfl⟩, rfl, rfl⟩

/-- Claim C2: in every state of the semaphore reachable under the usage
protocol, `0 ≤ currentConcurrent ≤ maxConcurrent`, and an `acquire`
arriving while `currentConcurrent = maxConcurrent` appends the caller to
the queue without granting it a slot (count unchanged, resolver pending). -/
theorem semaphore_capacity_invariant (s : Semaphore) (id : Nat) (h : SemReachable s) :
    0 ≤ s.currentConcurrent ∧ s.currentConcurrent ≤ (s.maxConcurrent : Int) ∧
      (s.currentConcurrent = (s.maxConcurrent : Int) →
        s.acquire id = (⟨s.maxConcurrent, s.currentConcurrent, s.queue ++ [id]⟩, false)) := by
  have inv : ∀ t : Semaphore, SemReachable t →
      0 ≤ t.currentConcurrent ∧ t.currentConcurrent ≤ (t.maxConcurrent : Int) := by
    intro t ht
    induction ht with
    | init cap =>
      refine ⟨?_, ?_⟩
      · show (0 : Int) ≤ 0
        omega
      · show (0 : Int) ≤ (cap : Int)
        omega
    | acquire t id2 ht ih =>
      obtain ⟨ih1, ih2⟩ := ih
      unfold Semaphore.acquire
      by_cases hc : t.currentConcurrent < (t.maxConcurrent : Int)
      · rw [if_pos hc]
        dsimp only
        omega
      · rw [if_neg hc]
        dsimp only
        omega
    | release t ht hpos ih =>
      obtain ⟨ih1, ih2⟩ := ih
      unfold Semaphore.release
      cases hq : t.queue
      · dsimp only
        omega
      · dsimp only
        omega
  refine ⟨(inv s h).1, (inv s h).2, ?_⟩
  intro hcap
  unfold Semaphore.acquire
  rw [if_neg (by omega)]

/-- Witness for claim C2 at the concrete reachable state with capacity 1,
one holder and an empty queue (reached by one granted acquire): the bounds
hold and a further acquire is enqueued, not granted. -/
theorem semaphore_capacity_invariant_witness :
    0 ≤ (⟨1, 1, []⟩ : Semaphore).currentConcurrent ∧
    (⟨1, 1, []⟩ : Semaphore).currentConcurrent ≤ (((⟨1, 1, []⟩ : Semaphore).maxConcurrent : Nat) : Int) ∧
    Semaphore.acquire ⟨1, 1, []⟩ 7 = (⟨1, 1, [7]⟩, false) := by
  have hr : SemReachable ⟨1, 1, []⟩ :=
    SemReachable.acquire ⟨1, 0, []⟩ 4 (SemReachable.init 1)
  have h := semaphore_capacity_invariant ⟨1, 1, []⟩ 7 hr
  exact ⟨h.1, h.2.1, h.2.2 rfl⟩

/-- Claim C3 counterexample: the schedule in which both `ensureBrowser`
callers perform their `globalBrowser` check before either launch has
completed leaves BOTH callers inside `puppeteer.launch` — two engine
launches in flight at once, each started by a caller that observed the
engine uninitialized. -/
theorem ensureBrowser_double_launch :
    launchRun [false, true] = ⟨none, 0, CallerPc.launching, CallerPc.launching⟩ ∧
    inFlight (launchRun [false, true]) = 2 :=
  ⟨rfl, rfl⟩

/-- Claim C3 (amended): once `globalBrowser` is published, a caller
entering `ensureBrowser` reuses it without launching; but while it is
still unset — including while another caller's launch is in flight — each
entering caller starts its own independent launch (there is no
single-flight guard). -/
theorem ensureBrowser_reuse_or_race :
    (∀ (s : LaunchSys) (c : Bool) (e : Nat),
        s.globalBrowser = some e → getPc s c = CallerPc.start →
        ensureBrowserStep s c = setPc s c (CallerPc.done e false)) ∧
    (∀ (s : LaunchSys) (c : Bool),
        s.globalBrowser = none → getPc s c = CallerPc.start →
        ensureBrowserStep s c = setPc s c CallerPc.launching) := by
  constructor
  · intro s c e hg hp
    unfold ensureBrowserStep
    rw [hp, hg]
  · intro s c hg hp
    unfold ensureBrowserStep
    rw [hp, hg]

/-- Witness for claim C3's amended theorem at concrete states: a caller
reuses a published browser, and a caller seeing no browser starts a
launch. -/
theorem ensureBrowser_reuse_or_race_witness :
    ensureBrowserStep ⟨some 3, 4, CallerPc.start, CallerPc.start⟩ false
      = setPc ⟨some 3, 4, CallerPc.start, CallerPc.start⟩ false (CallerPc.done 3 false) ∧
    ensureBrowserStep ⟨none, 0, CallerPc.start, CallerPc.start⟩ true
      = setPc ⟨none, 0, CallerPc.start, CallerPc.start⟩ true CallerPc.launching :=
  ⟨ensureBrowser_reuse_or_race.1 ⟨some 3, 4, CallerPc.start, CallerPc.start⟩ false 3 rfl rfl,
   ensureBrowser_reuse_or_race.2 ⟨none, 0, CallerPc.start, CallerPc.start⟩ true rfl rfl⟩

/-- Claim C4: `release` with a non-empty queue hands the slot directly to
the head of the queue — the longest-waiting waiter, since `acquire`
appends at the tail — leaving `currentConcurrent` unchanged in the one
atomic (synchronous) step; and over any whole run from a fresh semaphore
the grant log followed by the residual queue equals the enqueue log, so
queued requests are granted in exactly FIFO order. -/
theorem semaphore_fifo_handoff :
    (∀ (s : Semaphore) (w : Nat) (restq : List Nat), s.queue = w :: restq →
        (s.release).1 = ⟨s.maxConcurrent, s.currentConcurrent, restq⟩ ∧
        (s.release).2 = some w) ∧
    (∀ (cap : Nat) (ops : List SemOp),
        (semRun ops ⟨cap, 0, []⟩ [] []).2.1
          = (semRun ops ⟨cap, 0, []⟩ [] []).2.2 ++ ((semRun ops ⟨cap, 0, []⟩ [] []).1).queue) := by
  constructor
  · intro s w restq hq
    unfold Semaphore.release
    rw [hq]
    have hcc : s.currentConcurrent - 1 + 1 = s.currentConcurrent := by omega
    dsimp only
    rw [hcc]
    exact ⟨rfl, rfl⟩
  · intro cap ops
    exact semRun_log_inv ops ⟨cap, 0, []⟩ [] [] rfl

/-- Witness for claim C4 at a concrete semaphore with two waiters and at a
concrete run (capacity 1, three acquires, two releases). -/
theorem semaphore_fifo_handoff_witness :
    ((⟨3, 2, [5, 9]⟩ : Semaphore).release).1 = ⟨3, 2, [9]⟩ ∧
    ((⟨3, 2, [5, 9]⟩ : Semaphore).release).2 = some 5 ∧
    (semRun [SemOp.acq 10, SemOp.acq 11, SemOp.acq 12, SemOp.rel, SemOp.rel] ⟨1, 0, []⟩ [] []).2.1
      = (semRun [SemOp.acq 10, SemOp.acq 11, SemOp.acq 12, SemOp.rel, SemOp.rel] ⟨1, 0, []⟩ [] []).2.2
        ++ ((semRun [SemOp.acq 10, SemOp.acq 11, SemOp.acq 12, SemOp.rel, SemOp.rel] ⟨1, 0, []⟩ [] []).1).queue := by
  have h := semaphore_fifo_handoff
  exact ⟨(h.1 ⟨3, 2, [5, 9]⟩ 5 [9] rfl).1, (h.1 ⟨3, 2, [5, 9]⟩ 5 [9] rfl).2, h.2 1 _⟩

/-- Claim C5: on any search document whose anchors yield the handle
sequence a, b, a, c, d, extraction with limit 3 returns exactly the
handles a, b, c (dedup keeps the first occurrence, document order is
preserved, the result is truncated to the limit); and in general the
extraction result never contains two records with the same handle and
never exceeds the limit in length. -/
theorem extract_dedup_truncate (links : List Anchor) (limit : Nat) :
    (hrefHandles (links.map (fun a => a.href)) = ["a", "b", "a", "c", "d"] →
      (extractUsers links 3).map (fun r => r.username) = ["a", "b", "c"]) ∧
    ((extractUsers links ((limit : Nat) : Int)).map (fun r => r.username)).Nodup ∧
    (extractUsers links ((limit : Nat) : Int)).length ≤ limit := by
  refine ⟨?_, ?_, ?_⟩
  · intro h
    rw [extractUsers_map_username, h]
    rfl
  · rw [extractUsers_map_username]
    exact List.Sublist.nodup (jsSliceTo_sublist _ _)
      (dedupTakeStr_nodup _ _ [] [] List.nodup_nil (by simp))
  · unfold extractUsers jsSliceTo
    rw [if_pos (by omega : (0 : Int) ≤ ((limit : Nat) : Int))]
    have ht : (((limit : Nat) : Int)).toNat = limit := by omega
    rw [ht]
    exact List.length_take_le _ _

/-- Witness for claim C5 at the concrete document with anchor handles
a, b, a, c, d. -/
theorem extract_dedup_truncate_witness :
    ((extractUsers links5 3).map (fun r => r.username) = ["a", "b", "c"]) ∧
    ((extractUsers links5 ((3 : Nat) : Int)).map (fun r => r.username)).Nodup ∧
    (extractUsers links5 ((3 : Nat) : Int)).length ≤ 3 := by
  have h := extract_dedup_truncate links5 3
  exact ⟨h.1 rfl, h.2.1, h.2.2⟩

/-- Claim C6 counterexample: on a document with two valid anchors, a
navigation (`page.goto`) timeout makes `scrapeUsers` return the EMPTY
list — the two records that the very same document yields on the
fault-free run are not returned. -/
theorem nav_timeout_returns_empty :
    (scrapeUsersExec navTimeoutOnly demoLinks "dance" 5).2 = Except.ok [] ∧
    (scrapeUsersExec noFaults demoLinks "dance" 5).2
      = Except.ok [⟨"alice", "a.png", "alice"⟩, ⟨"bob", "b.png", "bob"⟩] :=
  ⟨rfl, rfl⟩

/-- Claim C6 (amended): a navigation timeout is swallowed by the `catch`
and `scrapeUsers` completes with an empty success, not the partial
records; the non-fatal, degraded-mode timeout is the readiness-probe
(`waitForSelector`) timeout, after which extraction still runs and the
document's records are returned (`probeTimesOut` does not appear in the
result at all). -/
theorem nav_timeout_swallowed_probe_degraded (f : Faults) (links : List Anchor)
    (q : String) (m : Int)
    (hq : q ≠ "") (hl : f.launchFails = false) (hn : f.newPageFails = false) :
    (f.navTimesOut = true → (scrapeUsersExec f links q m).2 = Except.ok []) ∧
    (f.navTimesOut = false → f.extractThrows = false →
      (scrapeUsersExec f links q m).2 = Except.ok (extractUsers links m)) := by
  unfold scrapeUsersExec
  rw [if_neg hq, if_neg (by simp [hl]), if_neg (by simp [hn])]
  constructor
  · intro hnav
    show catchToEmpty (scrapeUsersBody f links m) = Except.ok []
    unfold scrapeUsersBody
    rw [if_pos hnav]
    rfl
  · intro hnav hex
    show catchToEmpty (scrapeUsersBody f links m) = Except.ok (extractUsers links m)
    unfold scrapeUsersBody
    rw [if_neg (by simp [hnav]), if_neg (by simp [hex])]
    rfl

/-- Witness for claim C6's amended theorem: with only the navigation
timing out the result is empty; with only the probe timing out the
document's records are extracted. -/
theorem nav_timeout_swallowed_probe_degraded_witness :
    (scrapeUsersExec navTimeoutOnly demoLinks "dance" 5).2 = Except.ok [] ∧
    (scrapeUsersExec probeTimeoutOnly demoLinks "dance" 5).2
      = Except.ok (extractUsers demoLinks 5) :=
  ⟨(nav_timeout_swallowed_probe_degraded navTimeoutOnly demoLinks "dance" 5
      (by decide) rfl rfl).1 rfl,
   (nav_timeout_swallowed_probe_degraded probeTimeoutOnly demoLinks "dance" 5
      (by decide) rfl rfl).2 rfl rfl⟩

/-- Claim C7 counterexample: on the same zero-acceptance-marker document,
the FIRST `scrapeUserProfile` variant (no confirmation check; the probe
timeout is only logged) returns a record with defaulted facets instead of
`null`, while the second variant returns `null`. -/
theorem profile_v1_ignores_missing_markers :
    (scrapeUserProfileExecV1 noFaults ghostDoc "ghost").2
      = Except.ok (some ⟨"ghost", "", "", "", "", "", "", false, []⟩) ∧
    (scrapeUserProfileExec noFaults ghostDoc "ghost").2 = Except.ok none :=
  ⟨rfl, rfl⟩

/-- Claim C7 (amended): in the `scrapeUserProfile` variant with the
`checkElementsExist` confirmation step, every fetch whose document has
zero acceptance markers returns `null` — a success, not an error
(regardless of a navigation timeout or a throwing evaluate, both of which
are also mapped to `null` by the catch). -/
theorem profile_no_marker_returns_none (f : Faults) (d : PDoc) (u : String)
    (hu : u ≠ "") (hl : f.launchFails = false) (hn : f.newPageFails = false)
    (hm : ∀ sel ∈ profileCheckSelectors, d.query sel = none) :
    (scrapeUserProfileExec f d u).2 = Except.ok none := by
  have hch : checkElementsExist d profileCheckSelectors = false := by
    unfold checkElementsExist
    rw [List.any_eq_false]
    intro sel hs
    rw [hm sel hs]
    simp
  unfold scrapeUserProfileExec
  rw [if_neg hu, if_neg (by simp [hl]), if_neg (by simp [hn])]
  show catchToNone (scrapeUserProfileBody f d) = Except.ok none
  unfold scrapeUserProfileBody
  cases hnav : f.navTimesOut
  · rw [if_neg (by simp), if_pos hch]
    rfl
  · rw [if_pos rfl]
    rfl

/-- Witness for claim C7's amended theorem at a concrete empty profile
document. -/
theorem profile_no_marker_returns_none_witness :
    (scrapeUserProfileExec noFaults ghostDoc "ghost").2 = Except.ok none :=
  profile_no_marker_returns_none noFaults ghostDoc "ghost" (by decide) rfl rfl
    (fun sel _ => rfl)

/-- Claim C8 (evidence): the part_001 variant's extraction, on a document
with zero entity anchors (every selector list empty) and limit 5, does not
return the empty result: it synthesizes three placeholder records. -/
theorem part1_synthesizes_mock_records :
    part1Evaluate ⟨[], [], [], [], [], []⟩ 5
      = [⟨"mock_user", "https://via.placeholder.com/100x100?text=Avatar", "Mock User"⟩,
         ⟨"mock_user_2", "https://via.placeholder.com/100x100?text=Avatar", "Mock User 2"⟩,
         ⟨"mock_user_3", "https://via.placeholder.com/100x100?text=Avatar", "Mock User 3"⟩] :=
  rfl

/-- Claim C9 counterexample: the tiktok-api-server `scrapeUsers` accepts
out-of-range limits instead of failing with an invalid-argument error:
limit 0 yields a successful empty result and limit 25 (> 20) a successful
extraction. -/
theorem limit_not_validated_in_main_server :
    (scrapeUsersExec noFaults demoLinks "dance" 0).2 = Except.ok [] ∧
    (scrapeUsersExec noFaults demoLinks "dance" 25).2
      = Except.ok [⟨"alice", "a.png", "alice"⟩, ⟨"bob", "b.png", "bob"⟩] :=
  ⟨rfl, rfl⟩

/-- Claim C9 (amended): the simple-api-server `scrapeUsers` rejects a
limit outside [1, 20] with the validation error before any document is
consulted, accepts every in-range limit, and — for the tiktok-api-server
extraction — a limit at least the number of distinct discoverable
candidates returns exactly those candidates, without padding. -/
theorem limit_validation_and_no_padding :
    (∀ (q : String) (m : Int) (d : CliDoc), q ≠ "" → (m < 1 ∨ m > 20) →
        simpleScrapeUsers q m d = Except.error "maxResults must be between 1 and 20") ∧
    (∀ (q : String) (m : Int) (d : CliDoc), q ≠ "" → 1 ≤ m → m ≤ 20 →
        simpleScrapeUsers q m d = Except.ok (cliScrape d m.toNat)) ∧
    (∀ (links : List Anchor) (m : Int),
        ((dedupAll (collectRecords links) []).length : Int) ≤ m →
        extractUsers links m = dedupAll (collectRecords links) []) := by
  refine ⟨?_, ?_, ?_⟩
  · intro q m d hq hr
    unfold simpleScrapeUsers
    rw [if_neg hq, if_pos hr]
  · intro q m d hq h1 h2
    unfold simpleScrapeUsers
    rw [if_neg hq, if_neg (by omega : ¬(m < 1 ∨ m > 20))]
  · intro links m h
    unfold extractUsers evalSearchUsers
    rw [dedupTakeAux_of_le m (collectRecords links) [] [] (by simpa using h)]
    simp only [List.reverse_nil, List.nil_append]
    exact jsSliceTo_of_length_le _ _ h

/-- Witness for claim C9's amended theorem at concrete inputs: limit 0 is
rejected, limit 5 accepted, and limit 10 on a two-candidate document
returns both candidates. -/
theorem limit_validation_and_no_padding_witness :
    simpleScrapeUsers "dance" 0 cliDocA = Except.error "maxResults must be between 1 and 20" ∧
    simpleScrapeUsers "dance" 5 cliDocA = Except.ok (cliScrape cliDocA (5 : Int).toNat) ∧
    extractUsers demoLinks 10 = dedupAll (collectRecords demoLinks) [] := by
  have h := limit_validation_and_no_padding
  exact ⟨h.1 "dance" 0 cliDocA (by decide) (Or.inl (by omega)),
         h.2.1 "dance" 5 cliDocA (by decide) (by omega) (by omega),
         h.2.2 demoLinks 10 (by decide)⟩

/-- Claim C10 counterexample: in the tiktok-user-scraper variant the
handle is taken from the `textContent` of the username-selector element —
free text: two documents with identical structure but different element
text yield records whose handles are exactly those texts. -/
theorem cli_handle_from_free_text :
    cliScrape cliDocA 1 = [⟨"Alice In Wonderland", "x.png", "Alice In Wonderland"⟩] ∧
    cliScrape cliDocB 1 = [⟨"Bobby Tables", "x.png", "Bobby Tables"⟩] :=
  ⟨rfl, rfl⟩

/-- Claim C10 (amended): in the tiktok-api-server search, the returned
handles depend only on the anchors' hrefs (documents with the same hrefs
but different images and text contents give identical handle sequences),
and every returned record's handle is the `@`-path segment captured from
some anchor's href. -/
theorem handle_from_href_only :
    (∀ (l1 l2 : List Anchor) (m : Int),
        l1.map (fun a => a.href) = l2.map (fun a => a.href) →
        (extractUsers l1 m).map (fun r => r.username)
          = (extractUsers l2 m).map (fun r => r.username)) ∧
    (∀ (links : List Anchor) (m : Int) (r : UserRecord), r ∈ extractUsers links m →
        ∃ a, a ∈ links ∧ extractHandle a.href = some r.username) := by
  constructor
  · intro l1 l2 m h
    rw [extractUsers_map_username, extractUsers_map_username, h]
  · intro links m r hr
    have h1 : r ∈ evalSearchUsers links m := (jsSliceTo_sublist _ _).subset hr
    have h2 : r ∈ collectRecords links := by
      rcases mem_dedupTakeAux m (collectRecords links) [] [] r h1 with h | h
      · cases h
      · exact h
    rcases List.mem_filterMap.mp h2 with ⟨a, ha, heq⟩
    refine ⟨a, ha, ?_⟩
    cases hh : extractHandle a.href with
    | none =>
      exfalso
      simp [linkToRecord, hh] at heq
    | some u =>
      simp only [linkToRecord, hh, Option.some.injEq] at heq
      rw [← heq]

/-- Witness for claim C10's amended theorem: the two demo documents share
their hrefs and give the same handles, and the record for alice derives
its handle from the anchor `/@alice`. -/
theorem handle_from_href_only_witness :
    (extractUsers demoLinks 5).map (fun r => r.username)
      = (extractUsers demoLinks2 5).map (fun r => r.username) ∧
    (∃ a, a ∈ demoLinks ∧ extractHandle a.href = some "alice") := by
  have h := handle_from_href_only
  exact ⟨h.1 demoLinks demoLinks2 5 rfl,
         h.2 demoLinks 5 ⟨"alice", "a.png", "alice"⟩ (by decide)⟩
